import Mathlib

/-!
Shallow embedding of the content generation and publishing orchestrator
(`app/services/content_engine.py`, `app/services/instagram_publisher.py`,
`app/tasks/daily_content.py`).  Backend effects (OpenAI calls, JSON parsing,
Instagram HTTP responses, random draws, clock reads) are passed in explicitly
as oracle values; everything else is translated statement by statement from
the Python source.
-/

namespace ContentApp

/-- `ContentType` enum from `content_engine.py`. -/
inductive ContentType where
  | carousel
  | video
  | story
deriving DecidableEq, Repr

/-- `DayTheme` enum from `content_engine.py` (seven fixed day themes). -/
inductive DayTheme where
  | magical_monday
  | tiny_tales_tuesday
  | wonder_wednesday
  | thoughtful_thursday
  | fantasy_friday
  | story_saturday
  | serene_sunday
deriving DecidableEq, Repr

/-- The `.value` string of each `DayTheme` member. -/
def DayTheme.value : DayTheme → String
  | .magical_monday => "magical_monday_wisdom"
  | .tiny_tales_tuesday => "tiny_tales_tuesday"
  | .wonder_wednesday => "wonder_wednesday"
  | .thoughtful_thursday => "thoughtful_thursday"
  | .fantasy_friday => "fantasy_friday"
  | .story_saturday => "story_saturday"
  | .serene_sunday => "serene_sunday"

/-- The `ContentPiece` dataclass.  `created_at` is the clock read
(`datetime.now()`) injected as a number of seconds. -/
structure ContentPiece where
  theme : DayTheme
  content_type : ContentType
  title : String
  slides : List String
  caption : String
  hashtags : List String
  visual_prompts : List String
  psychology_concept : String
  magical_element : String
  target_age : String
  engagement_hooks : List String
  created_at : Nat
deriving DecidableEq, Repr

/-! ### Hashtags (`_generate_hashtags`) -/

/-- The 9 fixed base hashtags from `_generate_hashtags`. -/
def base_hashtags : List String :=
  ["#MagicalParenting", "#ParentingWisdom", "#ParentingTips",
   "#ChildPsychology", "#ParentingSupport", "#BedtimeStories",
   "#ParentingCommunity", "#RaisingKids", "#ParentingAdvice"]

/-- The 3 extra tags appended to the base list when `is_video` is true. -/
def video_hashtags : List String :=
  ["#ParentingVideo", "#InstagramVideo", "#ParentingReel"]

/-- The `theme_hashtags` dict (two tags per theme, all seven themes present). -/
def theme_hashtags : DayTheme → List String
  | .magical_monday => ["#MondayMotivation", "#ParentingMindset"]
  | .tiny_tales_tuesday => ["#TuesdayTales", "#Storytelling"]
  | .wonder_wednesday => ["#WonderWednesday", "#ParentingQuestions"]
  | .thoughtful_thursday => ["#ThoughtfulParenting", "#DeepThoughts"]
  | .fantasy_friday => ["#FantasyFriday", "#WeekendFun"]
  | .story_saturday => ["#StorySaturday", "#FamilyTime"]
  | .serene_sunday => ["#SereneParenting", "#SelfCare"]

/-- The two topic-derived tags built by string replacement on the topic. -/
def topic_hashtags (topic : String) : List String :=
  ["#" ++ ((topic.replace " " "").replace "_" ""),
   "#" ++ ((topic.replace " " "Tips").replace "_" "Tips")]

/-- `_generate_hashtags(topic, theme, is_video)`: base tags (extended with the
video tags when `is_video`), then theme tags, then topic tags, truncated to
25 entries. -/
def generate_hashtags (topic : String) (theme : DayTheme)
    (is_video : Bool) : List String :=
  let base := if is_video then base_hashtags ++ video_hashtags else base_hashtags
  (base ++ theme_hashtags theme ++ topic_hashtags topic).take 25

/-! ### Fallback content (`_generate_fallback_content`, `_generate_fallback_video`) -/

/-- `_generate_fallback_content(theme, topic)`: the deterministic 5-slide
carousel fallback. -/
def generate_fallback_content (theme : DayTheme) (topic : String)
    (now : Nat) : ContentPiece :=
  { theme := theme
    content_type := .carousel
    title := "Quick Tips for " ++ topic
    slides :=
      ["Struggling with " ++ topic ++ "?",
       "Take a deep breath, you have got this!",
       "Every challenge is a growth opportunity",
       "Small steps lead to big changes",
       "Share your experience below!"]
    caption := "Quick thoughts on " ++ topic ++ ". What works for your family?"
    hashtags := ["#ParentingTips", "#ParentingSupport", "#YouGotThis"]
    visual_prompts := ["Simple, calming illustration"]
    psychology_concept := "general support"
    magical_element := "gentle encouragement"
    target_age := "all"
    engagement_hooks := ["Quick question for you..."]
    created_at := now }

/-- `_generate_fallback_video(theme, topic)`: the deterministic 4-slide video
fallback. -/
def generate_fallback_video (theme : DayTheme) (topic : String)
    (now : Nat) : ContentPiece :=
  { theme := theme
    content_type := .video
    title := "Quick Video: " ++ topic
    slides :=
      ["Quick tip coming your way!",
       "When dealing with " ++ topic ++ "...",
       "Remember: Progress, not perfection",
       "What would you add? Comment below!"]
    caption := "Quick thoughts on " ++ topic ++ ". What is your experience?"
    hashtags := ["#ParentingVideo", "#QuickTips", "#ParentingSupport"]
    visual_prompts := ["Simple talking head with text overlay"]
    psychology_concept := "general support"
    magical_element := "encouraging tone"
    target_age := "all"
    engagement_hooks := ["Quick question..."]
    created_at := now }

/-! ### Generation success path -/

/-- Parsed JSON payload of the primary carousel backend call.  A field is
`none` when the key is absent (`dict.get` supplies the default). -/
structure CarouselData where
  title : Option String
  slides : Option (List String)
deriving DecidableEq, Repr

/-- Parsed JSON payload of the primary video backend call. -/
structure VideoData where
  title : Option String
  script_sections : Option (List String)
  scene_descriptions : Option (List String)
  hook : Option String
deriving DecidableEq, Repr

/-- Backend effects of one `generate_carousel_content` run.  `primary` is the
combined `_call_openai` + `json.loads` outcome of the content prompt;
`visual` and `caption` are the outcomes of the backend calls made inside
`_generate_visual_prompts` and `_generate_caption` (those two helpers catch
their own exceptions). -/
structure CarouselOracle where
  primary : Except String CarouselData
  visual : Except String (Option (List String))
  caption : Except String String
deriving Repr

/-- Backend effects of one `generate_video_content` run. -/
structure VideoOracle where
  primary : Except String VideoData
  caption : Except String String
deriving Repr

/-- `_generate_visual_prompts`: on success return the payload's `prompts`
list (default `[]`); any exception is caught by the bare `except:` and the
five fixed motif-keyed prompts are returned instead. -/
def generate_visual_prompts (r : Except String (Option (List String)))
    (magical_element : String) : List String :=
  match r with
  | .ok prompts => prompts.getD []
  | .error _ =>
      ["Whimsical illustration of " ++ magical_element ++ ", childrens book style",
       "Magical parent-child moment, soft colors, cozy setting",
       "Enchanted forest scene with family, warm lighting",
       "Fairy tale inspired parenting scene, gentle magic",
       "Magical family bonding moment, dreamy atmosphere"]

/-- `_generate_caption`: the backend's text, or the fixed fallback caption
when the call raises (caught locally). -/
def generate_caption (r : Except String String) (topic : String) : String :=
  match r with
  | .ok text => text
  | .error _ =>
      "Magical parenting wisdom for " ++ topic ++
      "! Every challenge is an opportunity for growth. What is your experience with this? Share below! #MagicalParenting #ParentingTips"

/-- `_generate_video_caption`: backend text or fixed fallback. -/
def generate_video_caption (r : Except String String) (topic : String) : String :=
  match r with
  | .ok text => text
  | .error _ =>
      "Quick magical parenting tip for " ++ topic ++
      "! Every challenge is a story waiting to be told. What is your experience? Comment below! #ParentingVideo #MagicalParenting"

/-- `_extract_hooks`: the first slide of the payload when the `slides` key is
present and truthy (non-empty). -/
def extract_hooks (cd : CarouselData) : List String :=
  match cd.slides with
  | some (h :: _) => [h]
  | _ => []

/-- `generate_carousel_content(theme, topic)` with the random draws
(`psychology_concept`, `magical_element`), backend outcomes and clock read
passed explicitly.  The `try` block covers the primary call and everything
after it; the only exceptions that can escape into it are the primary
backend call / JSON parse, so any `primary` error short-circuits to the
carousel fallback. -/
def generate_carousel_content (o : CarouselOracle) (theme : DayTheme)
    (topic : String) (psychology_concept magical_element : String)
    (now : Nat) : ContentPiece :=
  match o.primary with
  | .error _ => generate_fallback_content theme topic now
  | .ok cd =>
      { theme := theme
        content_type := .carousel
        title := cd.title.getD ""
        slides := cd.slides.getD []
        caption := generate_caption o.caption topic
        hashtags := generate_hashtags topic theme false
        visual_prompts := generate_visual_prompts o.visual magical_element
        psychology_concept := psychology_concept
        magical_element := magical_element
        target_age := "3-10"
        engagement_hooks := extract_hooks cd
        created_at := now }

/-- `generate_video_content(theme, topic)` under the same conventions. -/
def generate_video_content (o : VideoOracle) (theme : DayTheme)
    (topic : String) (psychology_concept magical_element : String)
    (now : Nat) : ContentPiece :=
  match o.primary with
  | .error _ => generate_fallback_video theme topic now
  | .ok vd =>
      { theme := theme
        content_type := .video
        title := vd.title.getD ""
        slides := vd.script_sections.getD []
        caption := generate_video_caption o.caption topic
        hashtags := generate_hashtags topic theme true
        visual_prompts := vd.scene_descriptions.getD []
        psychology_concept := psychology_concept
        magical_element := magical_element
        target_age := "3-10"
        engagement_hooks := [vd.hook.getD ""]
        created_at := now }

/-! ### Scheduler (`_calculate_optimal_time`) -/

/-- `_calculate_optimal_time(start_date, post_index)` reduced to the hour
computation.  `jitter` is the `random.randint(-15, 15)` draw in minutes,
injected.  `datetime.replace(hour=h)` raises `ValueError` unless
`0 ≤ h ≤ 23`, which we model by returning `none`; on success the result is
the scheduled minute-of-day (`hour * 60 + jitter`, jitter applied after
`replace`). -/
def calculate_optimal_time (post_index : Nat) (jitter : Int) : Option Int :=
  let base_hour := 9 + post_index * 3
  let base_hour := if 21 < base_hour then 9 + post_index * 2 else base_hour
  if base_hour ≤ 23 then some ((base_hour : Int) * 60 + jitter) else none

/-! ### Engagement estimator (`_estimate_engagement`) -/

/-- The fixed 4-entry high-performing psychology-concept set. -/
def high_engagement_concepts : List String :=
  ["emotional regulation", "positive reinforcement",
   "growth mindset", "empathy development"]

/-- The fixed 4-entry engaging magical-element set. -/
def engaging_magical_elements : List String :=
  ["fairy tale lessons", "dragon courage", "unicorn compassion",
   "enchanted forest wisdom"]

/-- The sequentially accumulated `base_engagement` rate: 0.05 plus the four
conditional bonuses, in source order. -/
def base_engagement_rate (content : ContentPiece) : ℚ :=
  let r0 : ℚ := 5 / 100
  let r1 := if content.psychology_concept ∈ high_engagement_concepts
    then r0 + 2 / 100 else r0
  let r2 := if content.magical_element ∈ engaging_magical_elements
    then r1 + 15 / 1000 else r1
  let r3 := if content.content_type = ContentType.video then r2 + 3 / 100 else r2
  if content.theme.value ∈ ["story_saturday", "serene_sunday"]
    then r3 + 1 / 100 else r3

/-- `int(estimated_reach * base_engagement)` (truncation; all values are
nonnegative, so `int()` is the floor). -/
def estimated_engagement_count (content : ContentPiece) (reach : Nat) : Nat :=
  Nat.floor ((reach : ℚ) * base_engagement_rate content)

/-- The dict returned by `_estimate_engagement`, with the `random.randint`
reach draw injected. -/
structure EngagementEstimate where
  estimated_reach : Nat
  estimated_engagement_rate : ℚ
  estimated_likes : Nat
  estimated_comments : Nat
  estimated_saves : Nat
deriving DecidableEq, Repr

/-- `_estimate_engagement(content)` with the reach draw as a parameter. -/
def estimate_engagement (content : ContentPiece) (reach : Nat) :
    EngagementEstimate :=
  let count := estimated_engagement_count content reach
  { estimated_reach := reach
    estimated_engagement_rate := base_engagement_rate content * 100
    estimated_likes := Nat.floor ((count : ℚ) * (7 / 10))
    estimated_comments := Nat.floor ((count : ℚ) * (2 / 10))
    estimated_saves := Nat.floor ((count : ℚ) * (1 / 10)) }

/-! ### Rate limiter (`_check_rate_limit`) -/

/-- The shared mutable pair `(request_count, last_request_time)`; time in
seconds. -/
structure RateLimiterState where
  request_count : Nat
  last_request_time : Nat
deriving DecidableEq, Repr

/-- `_check_rate_limit()` at clock time `now`: returns the slept duration
(0 when the call proceeded immediately) and the state after the call.  In
the sleep branch the post-sleep `datetime.now()` is `now + wait_time`; the
counter is reset to 0 and then incremented by the final `+= 1`. -/
def check_rate_limit (rate_limit : Nat) (s : RateLimiterState) (now : Nat) :
    Nat × RateLimiterState :=
  let s := if 3600 < now - s.last_request_time then ⟨0, now⟩ else s
  if rate_limit ≤ s.request_count then
    let wait_time := 3600 - (now - s.last_request_time)
    if 0 < wait_time then
      (wait_time, ⟨1, now + wait_time⟩)
    else
      (0, ⟨s.request_count + 1, s.last_request_time⟩)
  else
    (0, ⟨s.request_count + 1, s.last_request_time⟩)

/-- Iterate `_check_rate_limit` over a list of call times, collecting the
sleep durations. -/
def run_rate_limited_calls (rate_limit : Nat) (s : RateLimiterState) :
    List Nat → List Nat × RateLimiterState
  | [] => ([], s)
  | t :: ts =>
      let r := check_rate_limit rate_limit s t
      let rest := run_rate_limited_calls rate_limit r.2 ts
      (r.1 :: rest.1, rest.2)

/-! ### Publisher (`publish_carousel`) -/

/-- Outcome of one platform HTTP call: a 200 response carrying `{"id": id}`,
or a non-200 response with its body text. -/
inductive ApiResponse where
  | ok (id : String)
  | err (text : String)
deriving DecidableEq, Repr

/-- `True` iff the response had status 200. -/
def ApiResponse.isOk : ApiResponse → Bool
  | .ok _ => true
  | .err _ => false

/-- One platform call issued by the publisher, as recorded in the call
trace. -/
inductive ApiCall where
  | media_create (image_url : String) (caption : String)
  | media_publish (children : List String) (caption : String)
deriving DecidableEq, Repr

/-- Whether a trace entry is the `media_publish` call. -/
def ApiCall.is_publish : ApiCall → Bool
  | .media_create _ _ => false
  | .media_publish _ _ => true

/-- The caption field carried by a trace entry. -/
def ApiCall.cap : ApiCall → String
  | .media_create _ c => c
  | .media_publish _ c => c

/-- Result of `publish_carousel`: the success dict (keyed by the platform
post id) or the `{"error": ...}` dict (keyed by its message). -/
inductive PublishOutcome where
  | published (id : String)
  | failure (error : String)
deriving DecidableEq, Repr

/-- Platform responses for one `publish_carousel` run: `media_resp i` is
the response to the i-th media-creation call, `publish_resp` the response
to the final publish call. -/
structure PublishEnv where
  media_resp : Nat → ApiResponse
  publish_resp : ApiResponse

/-- The media-creation loop of `publish_carousel`: walks the asset URLs in
order, issuing one creation call per URL with caption
`content.slides[i] if i < len(content.slides) else ""`; a non-200 response
returns the error immediately (no further calls).  Returns the collected
media ids (or the failing response text) and the trace of issued calls. -/
def create_media_loop (env : PublishEnv) (content : ContentPiece) :
    List String → Nat → List String → Except String (List String) × List ApiCall
  | [], _, acc => (.ok acc.reverse, [])
  | url :: rest, i, acc =>
      let call := ApiCall.media_create url (content.slides.getD i "")
      match env.media_resp i with
      | .ok id =>
          let r := create_media_loop env content rest (i + 1) (id :: acc)
          (r.1, call :: r.2)
      | .err text => (.error text, [call])

/-- The combined caption string `f"{content.caption}\n\n{' '.join(content.hashtags)}"`. -/
def carousel_caption (content : ContentPiece) : String :=
  content.caption ++ "\n\n" ++ String.intercalate " " content.hashtags

/-- `publish_carousel(content, image_urls)`: create all media objects, then
issue the single publish call; any media-creation failure returns the
`"Media creation failed: ..."` error before the publish call.  Returns the
outcome and the full trace of platform calls. -/
def publish_carousel (env : PublishEnv) (content : ContentPiece)
    (image_urls : List String) : PublishOutcome × List ApiCall :=
  match create_media_loop env content image_urls 0 [] with
  | (.error text, calls) =>
      (.failure ("Media creation failed: " ++ text), calls)
  | (.ok media_ids, calls) =>
      let pcall := ApiCall.media_publish media_ids (carousel_caption content)
      match env.publish_resp with
      | .ok id => (.published id, calls ++ [pcall])
      | .err text => (.failure ("Publishing failed: " ++ text), calls ++ [pcall])

/-- Modelled from the spec (§4.5): the media-creation calls the carousel
protocol is described to issue — one per supplied asset URL, in order, each
carrying the corresponding slide's caption text (empty when the slide list
has no entry at that position).  Used to compare the code's loop against
the spec's description. -/
def spec_media_calls (content : ContentPiece) :
    List String → Nat → List ApiCall
  | [], _ => []
  | url :: rest, i =>
      ApiCall.media_create url (content.slides.getD i "") ::
        spec_media_calls content rest (i + 1)

/-- The media ids a fully successful run collects, per the responses. -/
def collected_media_ids (env : PublishEnv) :
    List String → Nat → List String
  | [], _ => []
  | _ :: rest, i =>
      (match env.media_resp i with
        | .ok id => id
        | .err _ => "") :: collected_media_ids env rest (i + 1)

/-! ### Retry layer (`app/tasks/daily_content.py`) -/

/-- The four retryable operation classes. -/
inductive OpClass where
  | daily_content
  | weekly_batch
  | campaign
  | publish
deriving DecidableEq, Repr

/-- The backoff base (seconds) of each task's `retry_delay` expression. -/
def retry_base : OpClass → Nat
  | .daily_content => 60
  | .weekly_batch => 300
  | .campaign => 600
  | .publish => 300

/-- `max_retries=3` on every `@shared_task(bind=True, max_retries=3)`. -/
def max_retries : Nat := 3

/-- `retry_delay = 2 ** self.request.retries * base`. -/
def retry_delay (c : OpClass) (retries : Nat) : Nat :=
  2 ^ retries * retry_base c

/-- States of the per-operation retry state machine. -/
inductive OpState where
  | pending
  | running (retries : Nat)
  | retrying (retries : Nat) (delay : Nat)
  | succeeded
  | failed (error : String)
deriving DecidableEq, Repr

/-- Whether a state is `Retrying`. -/
def OpState.isRetrying : OpState → Bool
  | .retrying _ _ => true
  | _ => false

/-- The `except` branch of each task: with `retries` prior retries recorded,
re-raise via `self.retry(countdown=retry_delay)` when
`retries < max_retries`, else re-raise the exception (terminal failure). -/
def step_on_failure (c : OpClass) (retries : Nat) (error : String) : OpState :=
  if retries < max_retries then OpState.retrying retries (retry_delay c retries)
  else OpState.failed error

/-- The state trace of an operation whose every attempt fails, from attempt
number `r` on; `errors n` is the error raised by the attempt run with
`retries = n`.  Fuel-structured so the definition computes. -/
def failing_run (c : OpClass) (errors : Nat → String) :
    Nat → Nat → List OpState
  | 0, _ => []
  | fuel + 1, r =>
      if r < max_retries then
        OpState.running r :: OpState.retrying r (retry_delay c r) ::
          failing_run c errors fuel (r + 1)
      else
        [OpState.running r, OpState.failed (errors r)]

/-- Full trace of an always-failing operation, from `Pending`. -/
def failing_trace (c : OpClass) (errors : Nat → String) : List OpState :=
  OpState.pending :: failing_run c errors (max_retries + 1) 0

/-! ### Concrete oracles and pieces used by the witnesses and counterexamples -/

/-- Carousel oracle whose primary call fails (C1 witness). -/
def c1_err_carousel : CarouselOracle :=
  ⟨Except.error "API Error", Except.ok none, Except.ok "c"⟩

/-- Video oracle whose primary call fails (C1 witness). -/
def c1_err_video : VideoOracle := ⟨Except.error "API Error", Except.ok "c"⟩

/-- Carousel oracle whose primary call succeeds but whose caption sub-step
backend call raises (C1 counterexample). -/
def c1_cex_oracle : CarouselOracle :=
  ⟨Except.ok ⟨some "T", some ["s1", "s2", "s3", "s4", "s5"]⟩,
   Except.ok (some ["v1"]), Except.error "boom"⟩

/-- Carousel oracle whose primary call fails (C6 counterexample). -/
def c6_err_oracle : CarouselOracle :=
  ⟨Except.error "API Error", Except.ok none, Except.ok "c"⟩

/-- Successful carousel oracle (C6 witness). -/
def c6_ok_oracle : CarouselOracle :=
  ⟨Except.ok ⟨some "T", some []⟩, Except.ok none, Except.ok "c"⟩

/-- Successful video oracle (C6 witness). -/
def c6_ok_video : VideoOracle :=
  ⟨Except.ok ⟨some "T", none, none, none⟩, Except.ok "c"⟩

/-- Successful carousel oracle whose payload has only two slides (C8). -/
def c8_oracle : CarouselOracle :=
  ⟨Except.ok ⟨some "T", some ["a", "b"]⟩, Except.ok none, Except.ok "c"⟩

/-- Successful video oracle whose payload has three script sections (C8). -/
def c8_video_oracle : VideoOracle :=
  ⟨Except.ok ⟨some "T", some ["x", "y", "z"], none, none⟩, Except.ok "c"⟩

end ContentApp

namespace ContentApp

/-- Every theme's entry in the `theme_hashtags` dict has two tags. -/
theorem theme_hashtags_length (theme : DayTheme) :
    (theme_hashtags theme).length = 2 := by
  cases theme <;> rfl

/-- The 25-cap in `_generate_hashtags` never truncates: the list is the
base tags (plus the three video tags when `is_video`), then the theme tags,
then the topic tags. -/
theorem generate_hashtags_eq (topic : String) (theme : DayTheme)
    (is_video : Bool) :
    generate_hashtags topic theme is_video
      = (if is_video then base_hashtags ++ video_hashtags else base_hashtags)
        ++ theme_hashtags theme ++ topic_hashtags topic := by
  unfold generate_hashtags
  rw [List.take_of_length_le]
  cases is_video <;>
    simp [base_hashtags, video_hashtags, topic_hashtags, theme_hashtags_length]

/-- The first 9 entries of any list extending the base tags are the base
tags. -/
theorem take_nine_base (rest : List String) :
    (base_hashtags ++ rest).take 9 = base_hashtags := by
  have h : base_hashtags.length = 9 := rfl
  rw [← h, List.take_left]

/-- C3 counterexample: with the jitter fixed to 0, the scheduler at index 5
does not return hour 11:00 as claimed. -/
theorem C3_counterexample :
    ¬ (calculate_optimal_time 5 0 = some (11 * 60)) := by decide

/-- C3 (amended): with jitter 0, `_calculate_optimal_time` returns hours
09:00, 12:00, 15:00, 18:00, 21:00 for indices 0 through 4; for index 5 the
3-hour base 9 + 3·5 = 24 exceeds 21, so the 2-hour-step branch is taken and
the returned hour is 9 + 2·5 = 19:00. -/
theorem C3_schedule_hours :
    calculate_optimal_time 0 0 = some (9 * 60)
    ∧ calculate_optimal_time 1 0 = some (12 * 60)
    ∧ calculate_optimal_time 2 0 = some (15 * 60)
    ∧ calculate_optimal_time 3 0 = some (18 * 60)
    ∧ calculate_optimal_time 4 0 = some (21 * 60)
    ∧ 21 < 9 + 5 * 3
    ∧ calculate_optimal_time 5 0 = some (19 * 60) := by decide

/-- C10: for every post index at least 8, the 2-hour-step branch recomputes
a base hour 9 + 2·index of at least 25, which `datetime.replace` rejects
(`ValueError`), so no timestamp is returned; and index 7 yields 23:00,
past the 21:00 ceiling the branch was meant to guarantee. -/
theorem C10_scheduler_partiality (i : Nat) (j : Int) (hi : 8 ≤ i) :
    calculate_optimal_time i j = none
    ∧ 25 ≤ 9 + i * 2
    ∧ calculate_optimal_time 7 0 = some (23 * 60)
    ∧ 21 < 23 := by
  refine ⟨?_, by omega, by decide, by omega⟩
  have h1 : 21 < 9 + i * 3 := by omega
  have h2 : ¬ (9 + i * 2 ≤ 23) := by omega
  simp [calculate_optimal_time, h1, h2]

/-- Witness for C10 at index 8. -/
theorem C10_scheduler_partiality_witness :
    8 ≤ 8
    ∧ (calculate_optimal_time 8 0 = none
        ∧ 25 ≤ 9 + 8 * 2
        ∧ calculate_optimal_time 7 0 = some (23 * 60)
        ∧ 21 < 23) :=
  ⟨by decide, C10_scheduler_partiality 8 0 (by decide)⟩

/-- C5 counterexample: an operation failing on every attempt passes through
the Retrying state 3 times (max_retries = 3 prior retries are granted), not
2 as the claim's trace states. -/
theorem C5_counterexample :
    ¬ ((failing_trace OpClass.daily_content fun _ => "boom").countP
        OpState.isRetrying = 2) := by decide

/-- C5 (amended): below 3 prior retries, a failure schedules a re-attempt
after base·2^attempt seconds (base 60 for daily content, 300 for weekly
batch, 600 for campaign, 300 for publish); at 3 prior retries the operation
fails with the last attempt's error; an operation failing on every attempt
traces Pending → Running → Retrying (×3) → Failed. -/
theorem C5_retry_policy (c : OpClass) (r : Nat) (e : String)
    (errors : Nat → String) (hr : r < 3) :
    step_on_failure c r e = OpState.retrying r (retry_base c * 2 ^ r)
    ∧ retry_delay OpClass.daily_content r = 60 * 2 ^ r
    ∧ retry_delay OpClass.weekly_batch r = 300 * 2 ^ r
    ∧ retry_delay OpClass.campaign r = 600 * 2 ^ r
    ∧ retry_delay OpClass.publish r = 300 * 2 ^ r
    ∧ step_on_failure c 3 e = OpState.failed e
    ∧ failing_trace c errors
      = [OpState.pending,
         OpState.running 0, OpState.retrying 0 (retry_delay c 0),
         OpState.running 1, OpState.retrying 1 (retry_delay c 1),
         OpState.running 2, OpState.retrying 2 (retry_delay c 2),
         OpState.running 3, OpState.failed (errors 3)] := by
  refine ⟨?_, ?_, ?_, ?_, ?_, rfl, rfl⟩
  · simp [step_on_failure, max_retries, hr, retry_delay, Nat.mul_comm]
  all_goals simp only [retry_delay, retry_base]; ring

/-- Witness for C5 at attempt 0 of daily content generation. -/
theorem C5_retry_policy_witness :
    0 < 3
    ∧ step_on_failure OpClass.daily_content 0 "boom"
      = OpState.retrying 0 (retry_base OpClass.daily_content * 2 ^ 0) :=
  ⟨by decide,
   (C5_retry_policy OpClass.daily_content 0 "boom" (fun _ => "boom")
     (by decide)).1⟩

/-- C1 counterexample: an exception raised by the backend call inside the
caption sub-step is absorbed there, so the generated piece is a real piece
(psychology concept from the random draw, not the fallback's
"general support"), refuting that any raising sub-step yields the fallback
piece. -/
theorem C1_counterexample :
    c1_cex_oracle.caption = Except.error "boom"
    ∧ (generate_carousel_content c1_cex_oracle DayTheme.magical_monday
        "toddler tantrums" "attachment theory" "owl wisdom" 0).psychology_concept
      ≠ "general support" := ⟨rfl, by decide⟩

/-- C1 (amended): any failure of the primary backend call / JSON parse makes
`generate_carousel_content` return the deterministic fallback with exactly
5 slides and psychology concept "general support", and
`generate_video_content` the 4-slide video fallback; failures inside the
caption and visual-prompt sub-steps are caught locally and replaced by
fixed fallback field values, and no exception propagates to the caller
(both generators are total functions of their oracles). -/
theorem C1_fallback_on_primary_error (oc : CarouselOracle) (ov : VideoOracle)
    (theme : DayTheme) (topic pc me pcv mev : String) (now : Nat)
    (e e' : String)
    (hc : oc.primary = Except.error e) (hv : ov.primary = Except.error e') :
    generate_carousel_content oc theme topic pc me now
      = generate_fallback_content theme topic now
    ∧ (generate_carousel_content oc theme topic pc me now).slides.length = 5
    ∧ (generate_carousel_content oc theme topic pc me now).psychology_concept
      = "general support"
    ∧ generate_video_content ov theme topic pcv mev now
      = generate_fallback_video theme topic now
    ∧ (generate_video_content ov theme topic pcv mev now).slides.length = 4 := by
  have h1 : generate_carousel_content oc theme topic pc me now
      = generate_fallback_content theme topic now := by
    unfold generate_carousel_content
    rw [hc]
  have h2 : generate_video_content ov theme topic pcv mev now
      = generate_fallback_video theme topic now := by
    unfold generate_video_content
    rw [hv]
  exact ⟨h1, by rw [h1]; rfl, by rw [h1]; rfl, h2, by rw [h2]; rfl⟩

/-- Witness for C1 on oracles whose primary calls fail. -/
theorem C1_fallback_on_primary_error_witness :
    c1_err_carousel.primary = Except.error "API Error"
    ∧ generate_carousel_content c1_err_carousel DayTheme.magical_monday
        "toddler tantrums" "a" "b" 0
      = generate_fallback_content DayTheme.magical_monday "toddler tantrums" 0
    ∧ (generate_video_content c1_err_video DayTheme.magical_monday
        "toddler tantrums" "a" "b" 0).slides.length = 4 := by
  have h := C1_fallback_on_primary_error c1_err_carousel c1_err_video
    DayTheme.magical_monday "toddler tantrums" "a" "b" "a" "b" 0
    "API Error" "API Error" rfl rfl
  exact ⟨rfl, h.1, h.2.2.2.2⟩

/-- C6 counterexample: a fallback carousel piece carries only the fixed
3-tag list, so its first 9 hashtags are not the 9 base tags. -/
theorem C6_counterexample :
    ¬ ((generate_carousel_content c6_err_oracle DayTheme.magical_monday
        "toddler tantrums" "p" "m" 0).hashtags.take 9 = base_hashtags) := by
  decide

/-- C6 (amended): every generated piece has at most 25 hashtags; pieces
produced on the successful backend path carry exactly the base tags (plus
the three video tags for video), then the theme tags, then the
topic-derived tags — in particular their first 9 hashtags are the 9 fixed
base tags and base-and-theme tags precede topic tags; fallback pieces carry
a fixed 3-tag list instead. -/
theorem C6_hashtag_invariants (oc : CarouselOracle) (ov : VideoOracle)
    (theme : DayTheme) (topic pc me : String) (now : Nat) :
    (generate_carousel_content oc theme topic pc me now).hashtags.length ≤ 25
    ∧ (generate_video_content ov theme topic pc me now).hashtags.length ≤ 25
    ∧ (∀ cd, oc.primary = Except.ok cd →
        (generate_carousel_content oc theme topic pc me now).hashtags
          = base_hashtags ++ theme_hashtags theme ++ topic_hashtags topic
        ∧ (generate_carousel_content oc theme topic pc me now).hashtags.take 9
          = base_hashtags)
    ∧ (∀ vd, ov.primary = Except.ok vd →
        (generate_video_content ov theme topic pc me now).hashtags
          = (base_hashtags ++ video_hashtags) ++ theme_hashtags theme
            ++ topic_hashtags topic
        ∧ (generate_video_content ov theme topic pc me now).hashtags.take 9
          = base_hashtags) := by
  have hc : ∀ cd, oc.primary = Except.ok cd →
      (generate_carousel_content oc theme topic pc me now).hashtags
        = base_hashtags ++ theme_hashtags theme ++ topic_hashtags topic := by
    intro cd hcd
    simp [generate_carousel_content, hcd, generate_hashtags_eq]
  have hv : ∀ vd, ov.primary = Except.ok vd →
      (generate_video_content ov theme topic pc me now).hashtags
        = (base_hashtags ++ video_hashtags) ++ theme_hashtags theme
          ++ topic_hashtags topic := by
    intro vd hvd
    simp [generate_video_content, hvd, generate_hashtags_eq]
  refine ⟨?_, ?_, fun cd hcd => ⟨hc cd hcd, ?_⟩, fun vd hvd => ⟨hv vd hvd, ?_⟩⟩
  · rcases hp : oc.primary with e | cd
    · simp [generate_carousel_content, hp, generate_fallback_content]
    · rw [hc cd hp]
      simp [base_hashtags, topic_hashtags, theme_hashtags_length]
  · rcases hp : ov.primary with e | vd
    · simp [generate_video_content, hp, generate_fallback_video]
    · rw [hv vd hp]
      simp [base_hashtags, video_hashtags, topic_hashtags, theme_hashtags_length]
  · rw [hc cd hcd, List.append_assoc, take_nine_base]
  · rw [hv vd hvd, List.append_assoc, List.append_assoc, take_nine_base]

/-- Witness for C6 on a successful carousel and a successful video oracle. -/
theorem C6_hashtag_invariants_witness :
    (generate_carousel_content c6_ok_oracle DayTheme.magical_monday
        "toddler tantrums" "p" "m" 0).hashtags
      = base_hashtags ++ theme_hashtags DayTheme.magical_monday
        ++ topic_hashtags "toddler tantrums"
    ∧ (generate_video_content c6_ok_video DayTheme.magical_monday
        "toddler tantrums" "p" "m" 0).hashtags.take 9 = base_hashtags := by
  have h := C6_hashtag_invariants c6_ok_oracle c6_ok_video
    DayTheme.magical_monday "toddler tantrums" "p" "m" 0
  exact ⟨(h.2.2.1 _ rfl).1, (h.2.2.2 _ rfl).2⟩

/-- C8 counterexample: a successful backend path whose parsed payload
carries only two slides yields a carousel piece with 2 slides, not 5. -/
theorem C8_counterexample :
    ¬ ((generate_carousel_content c8_oracle DayTheme.magical_monday
        "t" "p" "m" 0).slides.length = 5) := by decide

/-- C8 (amended): fallback pieces always have exactly 5 (carousel) or 4
(video) slides; on the successful backend path the slide list is whatever
the parsed payload supplied (`slides` / `script_sections`, default empty) —
the count is not validated against the content kind. -/
theorem C8_slide_counts (oc : CarouselOracle) (ov : VideoOracle)
    (theme : DayTheme) (topic pc me : String) (now : Nat) :
    (∀ e, oc.primary = Except.error e →
      (generate_carousel_content oc theme topic pc me now).slides.length = 5)
    ∧ (∀ cd, oc.primary = Except.ok cd →
      (generate_carousel_content oc theme topic pc me now).slides
        = cd.slides.getD [])
    ∧ (∀ e, ov.primary = Except.error e →
      (generate_video_content ov theme topic pc me now).slides.length = 4)
    ∧ (∀ vd, ov.primary = Except.ok vd →
      (generate_video_content ov theme topic pc me now).slides
        = vd.script_sections.getD []) := by
  refine ⟨?_, ?_, ?_, ?_⟩ <;> intro x hx <;>
    simp [generate_carousel_content, generate_video_content, hx,
      generate_fallback_content, generate_fallback_video]

/-- Witness for C8: the carousel piece inherits the payload's 2-element
slide list, the video piece the payload's 3-element script list. -/
theorem C8_slide_counts_witness :
    (generate_carousel_content c8_oracle DayTheme.magical_monday
        "t" "p" "m" 0).slides = ["a", "b"]
    ∧ (generate_video_content c8_video_oracle DayTheme.magical_monday
        "t" "p" "m" 0).slides = ["x", "y", "z"] := by
  have h := C8_slide_counts c8_oracle c8_video_oracle DayTheme.magical_monday
    "t" "p" "m" 0
  exact ⟨h.2.1 _ rfl, h.2.2.2 _ rfl⟩

/-- When the first `k` media-creation responses are 200 and the `k`-th call
(0-based, with `k` within the URL list) returns an error, the creation loop
returns that error and its call trace contains no publish call. -/
theorem create_media_loop_fail (env : PublishEnv) (content : ContentPiece) :
    ∀ (urls : List String) (i k : Nat) (acc : List String) (t : String),
      k < urls.length →
      (∀ j, j < k → (env.media_resp (i + j)).isOk = true) →
      env.media_resp (i + k) = ApiResponse.err t →
      (create_media_loop env content urls i acc).1 = Except.error t
      ∧ ∀ c ∈ (create_media_loop env content urls i acc).2,
          c.is_publish = false := by
  intro urls
  induction urls with
  | nil => intro i k acc t hk; simp at hk
  | cons url rest ih =>
      intro i k acc t hk hok hfail
      match k with
      | 0 =>
          have hi : env.media_resp i = ApiResponse.err t := hfail
          constructor
          · simp [create_media_loop, hi]
          · simp [create_media_loop, hi, ApiCall.is_publish]
      | k' + 1 =>
          have h0 : (env.media_resp i).isOk = true := hok 0 (by omega)
          rcases hresp : env.media_resp i with id | t'
          · have hok' : ∀ j, j < k' → (env.media_resp (i + 1 + j)).isOk = true := by
              intro j hj
              have := hok (j + 1) (by omega)
              rwa [show i + (j + 1) = i + 1 + j by omega] at this
            have hfail' : env.media_resp (i + 1 + k') = ApiResponse.err t := by
              rwa [show i + (k' + 1) = i + 1 + k' by omega] at hfail
            have hrec := ih (i + 1) k' (id :: acc) t (by simpa using hk) hok' hfail'
            constructor
            · simpa [create_media_loop, hresp] using hrec.1
            · intro c hcmem
              simp only [create_media_loop, hresp, List.mem_cons] at hcmem
              rcases hcmem with rfl | hcmem
              · rfl
              · exact hrec.2 c hcmem
          · rw [hresp] at h0
            simp [ApiResponse.isOk] at h0

/-- C2: if the media-creation call for any asset fails (all earlier ones
having succeeded), `publish_carousel` returns the failure referencing the
media-creation step, issues no `media_publish` call, and is not a success. -/
theorem C2_media_failure_aborts (env : PublishEnv) (content : ContentPiece)
    (image_urls : List String) (k : Nat) (t : String)
    (hk : k < image_urls.length)
    (hok : ∀ j, j < k → (env.media_resp j).isOk = true)
    (hfail : env.media_resp k = ApiResponse.err t) :
    (publish_carousel env content image_urls).1
      = PublishOutcome.failure ("Media creation failed: " ++ t)
    ∧ ∀ c ∈ (publish_carousel env content image_urls).2,
        c.is_publish = false := by
  have h := create_media_loop_fail env content image_urls 0 k [] t hk
    (by simpa using hok) (by simpa using hfail)
  rcases hcl : create_media_loop env content image_urls 0 [] with ⟨res, calls⟩
  rw [hcl] at h
  obtain ⟨h1, h2⟩ := h
  simp only at h1
  subst h1
  constructor
  · simp [publish_carousel, hcl]
  · intro c hc
    simp only [publish_carousel, hcl] at hc
    exact h2 c hc

/-- When every needed media-creation response is 200, the loop returns the
collected media ids and issues exactly the spec-described creation calls. -/
theorem create_media_loop_ok (env : PublishEnv) (content : ContentPiece) :
    ∀ (urls : List String) (i : Nat) (acc : List String),
      (∀ j, j < urls.length → (env.media_resp (i + j)).isOk = true) →
      create_media_loop env content urls i acc
        = (Except.ok (acc.reverse ++ collected_media_ids env urls i),
           spec_media_calls content urls i) := by
  intro urls
  induction urls with
  | nil =>
      intro i acc _
      simp [create_media_loop, collected_media_ids, spec_media_calls]
  | cons url rest ih =>
      intro i acc hok
      have h0 : (env.media_resp i).isOk = true := by
        have := hok 0 (by simp)
        simpa using this
      rcases hresp : env.media_resp i with id | t
      · have hok' : ∀ j, j < rest.length →
            (env.media_resp (i + 1 + j)).isOk = true := by
          intro j hj
          have := hok (j + 1) (by simp; omega)
          rwa [show i + (j + 1) = i + 1 + j by omega] at this
        have hrec := ih (i + 1) (id :: acc) hok'
        simp [create_media_loop, hresp, hrec, collected_media_ids,
          spec_media_calls, List.append_assoc]
      · rw [hresp] at h0
        simp [ApiResponse.isOk] at h0

/-- The `j`-th spec-described creation call carries the `j`-th URL and the
caption `content.slides[i+j]` (empty when past the slide list). -/
theorem spec_media_calls_get (content : ContentPiece) :
    ∀ (urls : List String) (i j : Nat) (url : String),
      urls.get? j = some url →
      (spec_media_calls content urls i).get? j
        = some (ApiCall.media_create url (content.slides.getD (i + j) "")) := by
  intro urls
  induction urls with
  | nil => intro i j url h; simp at h
  | cons u rest ih =>
      intro i j url h
      match j with
      | 0 =>
          simp only [List.get?] at h
          cases h
          simp [spec_media_calls]
      | j' + 1 =>
          simp only [List.get?] at h
          have := ih (i + 1) j' url h
          simp only [spec_media_calls, List.get?]
          rwa [show i + 1 + j' = i + (j' + 1) by omega] at this

/-- C9 counterexample: with 2 asset URLs and 5 slides the asset list is
shorter than the slide list, yet no call carries an empty caption — the
creation captions are the first two slide texts, refuting "empty string
exactly when the asset list is shorter than the slide list". -/
theorem C9_counterexample :
    (["u1", "u2"] : List String).length
      < (generate_fallback_content DayTheme.magical_monday "kids" 0).slides.length
    ∧ ∀ c ∈ (publish_carousel ⟨fun _ => ApiResponse.ok "m", ApiResponse.ok "p"⟩
        (generate_fallback_content DayTheme.magical_monday "kids" 0)
        ["u1", "u2"]).2, c.cap ≠ "" := by decide

/-- C9 (amended): when all media creations succeed, `publish_carousel`
issues exactly one creation call per asset URL, in list order, the `i`-th
carrying the `i`-th slide's text as caption (the empty string exactly for
positions at or beyond the slide count, i.e. when the asset list is longer
than the slide list), followed by the single publish call referencing the
collected media ids and the combined caption. -/
theorem C9_carousel_call_trace (env : PublishEnv) (content : ContentPiece)
    (image_urls : List String)
    (hok : ∀ j, j < image_urls.length → (env.media_resp j).isOk = true) :
    (publish_carousel env content image_urls).2
      = spec_media_calls content image_urls 0
        ++ [ApiCall.media_publish (collected_media_ids env image_urls 0)
            (carousel_caption content)]
    ∧ (spec_media_calls content image_urls 0).length = image_urls.length
    ∧ ∀ j url, image_urls.get? j = some url →
        (spec_media_calls content image_urls 0).get? j
          = some (ApiCall.media_create url (content.slides.getD j "")) := by
  have hloop := create_media_loop_ok env content image_urls 0 []
    (by simpa using hok)
  have hlen : ∀ (urls : List String) (i : Nat),
      (spec_media_calls content urls i).length = urls.length := by
    intro urls
    induction urls with
    | nil => intro i; simp [spec_media_calls]
    | cons u rest ih => intro i; simp [spec_media_calls, ih]
  refine ⟨?_, hlen image_urls 0, ?_⟩
  · rcases hpub : env.publish_resp with id | t <;>
      simp [publish_carousel, hloop, hpub]
  · intro j url hj
    have := spec_media_calls_get content image_urls 0 j url hj
    simpa using this

/-- Witness for C2: five asset URLs with a simulated failure on the 3rd
media-creation call. -/
theorem C2_media_failure_aborts_witness :
    (publish_carousel
        ⟨fun i => if i = 2 then ApiResponse.err "boom" else ApiResponse.ok "m",
         ApiResponse.ok "p"⟩
        (generate_fallback_content DayTheme.magical_monday "t" 0)
        ["u1", "u2", "u3", "u4", "u5"]).1
      = PublishOutcome.failure ("Media creation failed: " ++ "boom") := by
  have h := C2_media_failure_aborts
    ⟨fun i => if i = 2 then ApiResponse.err "boom" else ApiResponse.ok "m",
     ApiResponse.ok "p"⟩
    (generate_fallback_content DayTheme.magical_monday "t" 0)
    ["u1", "u2", "u3", "u4", "u5"] 2 "boom" (by decide) (by decide) (by decide)
  exact h.1

/-- Witness for C9 on an all-200 environment with two asset URLs. -/
theorem C9_carousel_call_trace_witness :
    (publish_carousel ⟨fun _ => ApiResponse.ok "m", ApiResponse.ok "p"⟩
        (generate_fallback_content DayTheme.magical_monday "kids" 0)
        ["u1", "u2"]).2
      = spec_media_calls (generate_fallback_content DayTheme.magical_monday "kids" 0)
          ["u1", "u2"] 0
        ++ [ApiCall.media_publish
            (collected_media_ids ⟨fun _ => ApiResponse.ok "m", ApiResponse.ok "p"⟩
              ["u1", "u2"] 0)
            (carousel_caption (generate_fallback_content DayTheme.magical_monday "kids" 0))] := by
  exact (C9_carousel_call_trace ⟨fun _ => ApiResponse.ok "m", ApiResponse.ok "p"⟩
    (generate_fallback_content DayTheme.magical_monday "kids" 0)
    ["u1", "u2"] (by decide)).1

/-- Starting from request count `c` inside a window opened at `t0`, a run of
calls at times within the hour window that keeps the count at or below the
limit proceeds with no sleeping and increments the counter once per call. -/
theorem run_calls_under_limit (rate_limit t0 : Nat) :
    ∀ (ts : List Nat) (c : Nat),
      (∀ x ∈ ts, t0 ≤ x ∧ x ≤ t0 + 3600) →
      c + ts.length ≤ rate_limit →
      run_rate_limited_calls rate_limit ⟨c, t0⟩ ts
        = (List.replicate ts.length 0, ⟨c + ts.length, t0⟩) := by
  intro ts
  induction ts with
  | nil => intro c _ _; simp [run_rate_limited_calls]
  | cons t ts ih =>
      intro c hts hc
      obtain ⟨h1, h2⟩ := hts t (by simp)
      have hnoreset : ¬ (3600 < t - t0) := by omega
      have hnolimit : ¬ (rate_limit ≤ c) := by
        simp only [List.length_cons] at hc; omega
      have hstep : check_rate_limit rate_limit ⟨c, t0⟩ t = (0, ⟨c + 1, t0⟩) := by
        simp [check_rate_limit, hnoreset, hnolimit]
      have hrest := ih (c + 1) (fun x hx => hts x (by simp [hx]))
        (by simp only [List.length_cons] at hc ⊢; omega)
      simp only [run_rate_limited_calls, hstep, hrest, List.length_cons,
        List.replicate_succ]
      have hcc : c + 1 + ts.length = c + (ts.length + 1) := by omega
      rw [hcc]

/-- C4: the rate limiter as a state machine over
`(request_count, last_request_time)`: from a fresh window at `t0`, up to
`limit` calls within the hour all proceed with no sleep, each incrementing
the counter; with the counter at the limit, a call strictly inside the
window sleeps exactly the remaining window time and proceeds with the
counter reset to 0 (then incremented to 1) and the window start moved to the
post-sleep clock `t0 + 3600`; and whenever more than 3600 seconds have
elapsed since the window start, the call behaves exactly as from the
freshly reset state `(0, now)`. -/
theorem C4_rate_limiter_machine (rate_limit t0 : Nat) (ts : List Nat)
    (t : Nat) (s : RateLimiterState) (now : Nat)
    (hts : ∀ x ∈ ts, t0 ≤ x ∧ x ≤ t0 + 3600)
    (hlen : ts.length ≤ rate_limit)
    (ht0 : t0 ≤ t) (ht : t - t0 < 3600)
    (helapsed : 3600 < now - s.last_request_time) :
    run_rate_limited_calls rate_limit ⟨0, t0⟩ ts
      = (List.replicate ts.length 0, ⟨ts.length, t0⟩)
    ∧ check_rate_limit rate_limit ⟨rate_limit, t0⟩ t
      = (3600 - (t - t0), ⟨1, t0 + 3600⟩)
    ∧ 0 < 3600 - (t - t0)
    ∧ check_rate_limit rate_limit s now
      = check_rate_limit rate_limit ⟨0, now⟩ now := by
  refine ⟨?_, ?_, by omega, ?_⟩
  · simpa using run_calls_under_limit rate_limit t0 ts 0 hts (by omega)
  · have hnoreset : ¬ (3600 < t - t0) := by omega
    have hwait : 0 < 3600 - (t - t0) := by omega
    simp [check_rate_limit, hnoreset, hwait]
    omega
  · have hreset : (if 3600 < now - s.last_request_time
        then (⟨0, now⟩ : RateLimiterState) else s) = ⟨0, now⟩ :=
      if_pos helapsed
    simp only [check_rate_limit, hreset]
    simp [Nat.sub_self]

/-- Witness for C4: limit 2, fresh window at 0, two calls inside the hour,
the third call at time 200, and a reset after a 4000-second gap. -/
theorem C4_rate_limiter_machine_witness :
    run_rate_limited_calls 2 ⟨0, 0⟩ [0, 100]
      = (List.replicate ([0, 100] : List Nat).length 0,
         ⟨([0, 100] : List Nat).length, 0⟩)
    ∧ check_rate_limit 2 ⟨2, 0⟩ 200 = (3600 - (200 - 0), ⟨1, 0 + 3600⟩)
    ∧ 0 < 3600 - (200 - 0)
    ∧ check_rate_limit 2 ⟨1, 0⟩ 4000 = check_rate_limit 2 ⟨0, 4000⟩ 4000 := by
  exact C4_rate_limiter_machine 2 0 [0, 100] 200 ⟨1, 0⟩ 4000
    (by decide) (by decide) (by decide) (by decide) (by decide)

/-- The sequentially accumulated engagement rate equals the additive closed
form: 5% plus the four independent bonuses. -/
theorem base_engagement_rate_eq (content : ContentPiece) :
    base_engagement_rate content
      = 5 / 100
        + (if content.psychology_concept ∈ high_engagement_concepts
            then 2 / 100 else 0)
        + (if content.magical_element ∈ engaging_magical_elements
            then 15 / 1000 else 0)
        + (if content.content_type = ContentType.video then 3 / 100 else 0)
        + (if content.theme.value ∈ ["story_saturday", "serene_sunday"]
            then 1 / 100 else 0) := by
  simp only [base_engagement_rate]
  split_ifs <;> ring

/-- The like/comment/save split (70%/20%/10%, each truncated) never sums to
more than the engagement count. -/
theorem engagement_split_le (content : ContentPiece) (reach : Nat) :
    (estimate_engagement content reach).estimated_likes
      + (estimate_engagement content reach).estimated_comments
      + (estimate_engagement content reach).estimated_saves
      ≤ estimated_engagement_count content reach := by
  simp only [estimate_engagement]
  set E := estimated_engagement_count content reach with hE
  have h7 : (Nat.floor ((E : ℚ) * (7 / 10)) : ℚ) ≤ (E : ℚ) * (7 / 10) :=
    Nat.floor_le (by positivity)
  have h2 : (Nat.floor ((E : ℚ) * (2 / 10)) : ℚ) ≤ (E : ℚ) * (2 / 10) :=
    Nat.floor_le (by positivity)
  have h1 : (Nat.floor ((E : ℚ) * (1 / 10)) : ℚ) ≤ (E : ℚ) * (1 / 10) :=
    Nat.floor_le (by positivity)
  have hsum : ((Nat.floor ((E : ℚ) * (7 / 10))
      + Nat.floor ((E : ℚ) * (2 / 10))
      + Nat.floor ((E : ℚ) * (1 / 10)) : Nat) : ℚ) ≤ (E : ℚ) := by
    push_cast
    linarith
  exact_mod_cast hsum

/-- C7: the engagement rate is 5% plus the four additive independent
bonuses; a piece with a high-performing concept, video kind and weekend
theme has a strictly higher rate than one with none of those bonuses (same
motif); the engagement count is reach × rate truncated; and the sum of the
like, comment and save counts never exceeds the engagement count. -/
theorem C7_engagement_estimator (p q : ContentPiece) (reach : Nat)
    (hp1 : p.psychology_concept ∈ high_engagement_concepts)
    (hp2 : p.content_type = ContentType.video)
    (hp3 : p.theme.value ∈ ["story_saturday", "serene_sunday"])
    (hq1 : q.psychology_concept ∉ high_engagement_concepts)
    (hq2 : q.content_type ≠ ContentType.video)
    (hq3 : q.theme.value ∉ ["story_saturday", "serene_sunday"])
    (hme : p.magical_element = q.magical_element) :
    (∀ content : ContentPiece, base_engagement_rate content
      = 5 / 100
        + (if content.psychology_concept ∈ high_engagement_concepts
            then 2 / 100 else 0)
        + (if content.magical_element ∈ engaging_magical_elements
            then 15 / 1000 else 0)
        + (if content.content_type = ContentType.video then 3 / 100 else 0)
        + (if content.theme.value ∈ ["story_saturday", "serene_sunday"]
            then 1 / 100 else 0))
    ∧ base_engagement_rate q < base_engagement_rate p
    ∧ estimated_engagement_count p reach
      = Nat.floor ((reach : ℚ) * base_engagement_rate p)
    ∧ (estimate_engagement p reach).estimated_likes
        + (estimate_engagement p reach).estimated_comments
        + (estimate_engagement p reach).estimated_saves
      ≤ estimated_engagement_count p reach := by
  refine ⟨base_engagement_rate_eq, ?_, rfl, engagement_split_le p reach⟩
  rw [base_engagement_rate_eq p, base_engagement_rate_eq q, ← hme]
  simp only [hp1, hp2, hp3, if_pos, if_true]
  rw [if_neg hq1, if_neg hq2, if_neg hq3]
  by_cases hm : p.magical_element ∈ engaging_magical_elements <;>
    simp [hm] <;> norm_num

/-- Concrete bonused piece for the C7 witness. -/
def c7_p : ContentPiece :=
  { theme := DayTheme.story_saturday
    content_type := ContentType.video
    title := "t"
    slides := []
    caption := "c"
    hashtags := []
    visual_prompts := []
    psychology_concept := "growth mindset"
    magical_element := "owl wisdom"
    target_age := "3-10"
    engagement_hooks := []
    created_at := 0 }

/-- Concrete unbonused piece for the C7 witness. -/
def c7_q : ContentPiece :=
  { c7_p with
    theme := DayTheme.magical_monday
    content_type := ContentType.carousel
    psychology_concept := "general support" }

/-- Witness for C7: the bonused piece strictly outscores the unbonused one
and its split obeys the bound at reach 1000. -/
theorem C7_engagement_estimator_witness :
    base_engagement_rate c7_q < base_engagement_rate c7_p
    ∧ (estimate_engagement c7_p 1000).estimated_likes
        + (estimate_engagement c7_p 1000).estimated_comments
        + (estimate_engagement c7_p 1000).estimated_saves
      ≤ estimated_engagement_count c7_p 1000 := by
  have h := C7_engagement_estimator c7_p c7_q 1000
    (by decide) rfl (by decide) (by decide) (by decide) (by decide) rfl
  exact ⟨h.2.1, h.2.2.2⟩

end ContentApp
